import Mathlib

/-!
# Verification of the disgord websocket client core

A shallow embedding of `src/websocket/client.go` (package `websocket`):
the session state, the Discord-event handler, the Hello handshake,
the heartbeat-ack watchdog, the reconnect controller with its debounce,
the pulsator single-flight token, `Emit` and `Disconnect`.

Time values (`time.Time`, `time.Duration`, unix nanoseconds) are modelled
as `Int` nanoseconds.  Goroutine spawns (`go m.reconnect()`, `go m.pulsate()`)
are modelled as boolean effect flags or as separately analysed functions.
Channel sends are modelled as values returned by the function that performs
them.  The outcome of `m.Conn` operations (success of `Connect`, the
transport's `Disconnected()` report, arrival of the shutdown signal) is
supplied by oracle parameters, since it depends on the network.

The packages `websocket/opcode`, `websocket/event`, `websocket/cmd` and the
ratelimiter are referenced by `client.go` but their sources are not part of
this corpus; their constants and the admission predicate are modelled from
the spec (see the individual doc comments).
-/

namespace Disgord

/-- Opcode constants, from the wire-protocol table in the spec.
Modelled from the spec: the `websocket/opcode` package is not in the corpus.
`Shutdown` and `Close` are the two internal pseudo-opcodes; their concrete
values are unspecified, we pick values outside the wire set. -/
def opcode.DiscordEvent : Nat := 0
def opcode.Heartbeat : Nat := 1
def opcode.Identify : Nat := 2
def opcode.StatusUpdate : Nat := 3
def opcode.VoiceStateUpdate : Nat := 4
def opcode.Resume : Nat := 6
def opcode.Reconnect : Nat := 7
def opcode.RequestGuildMembers : Nat := 8
def opcode.InvalidSession : Nat := 9
def opcode.Hello : Nat := 10
def opcode.HeartbeatAck : Nat := 11
def opcode.Shutdown : Nat := 100
def opcode.Close : Nat := 99

/-- Event-name and command-name string constants.
Modelled from the spec: the `websocket/event` and `websocket/cmd` packages
are not in the corpus.  The spec states the pass-through exceptions are the
dispatch names `READY` and `RESUMED`, and `client.go` compares
`p.EventName == event.Ready` and `p.EventName == event.Resume`. -/
def event.Ready : String := "READY"
def event.Resume : String := "RESUMED"
def event.Shutdown : String := "SHUTDOWN"
def event.Close : String := "CLOSE"
def event.Heartbeat : String := "HEARTBEAT"
def event.Identify : String := "IDENTIFY"
def cmd.RequestGuildMembers : String := "REQUEST_GUILD_MEMBERS"
def cmd.UpdateVoiceState : String := "VOICE_STATE_UPDATE"
def cmd.UpdateStatus : String := "STATUS_UPDATE"

/-- `maxReconnectTries`, client.go line 21. -/
def maxReconnectTries : Nat := 5

/-- The payload (`d` field) of an inbound packet.  `client.go` keeps it as
raw JSON bytes and unmarshals on demand (`readyPacket`, `helloPacket`); we
model the raw bytes as an inductive that records which unmarshals succeed. -/
inductive PacketData where
  | readyData (sessionID : String) (trace : List String)
  | helloData (heartbeatInterval : Nat)
  | rawData (s : String)
deriving DecidableEq, Repr

/-- `httd.Unmarshal(p.Data, &ready)` into `readyPacket`: on failure the error
is logged and the zero-valued struct (`""`, `[]`) is still stored
(client.go lines 431-439). -/
def unmarshalReady : PacketData → String × List String
  | .readyData sessionID trace => (sessionID, trace)
  | _ => ("", [])

/-- `httd.Unmarshal(p.Data, helloPk)` into `helloPacket`: on failure the
error is logged and the zero value 0 is used (client.go lines 512-518). -/
def unmarshalHello : PacketData → Nat
  | .helloData heartbeatInterval => heartbeatInterval
  | _ => 0

/-- Inbound `discordPacket` `{op, d, s, t}`. -/
structure discordPacket where
  Op : Nat
  Data : PacketData
  SequenceNumber : Nat
  EventName : String
deriving DecidableEq, Repr

/-- Outbound `clientPacket` `{op, d}`; `d` is an opaque serialisable value. -/
structure clientPacket (α : Type) where
  Op : Nat
  Data : α
deriving DecidableEq, Repr

/-- The exported `Event` record `{Name, Data}`. -/
structure Event where
  Name : String
  Data : PacketData
deriving DecidableEq, Repr

/-- The `Config` record (immutable), client.go lines 76-102. -/
structure Config where
  Token : String
  ChannelBuffer : Nat
  Endpoint : String
  Encoding : String
  Version : Nat
  Browser : String
  Device : String
  GuildLargeThreshold : Nat
  ShardID : Nat
  ShardCount : Nat
deriving DecidableEq, Repr

/-- The mutable session state of `Client`, client.go lines 104-137.
`lastRestart` is unix nanoseconds; `lastHeartbeatAck` is a timestamp and
`heartbeatLatency` a duration, both in nanoseconds.  `pulsating` is the
`uint8` single-flight token (values 0..255). -/
structure Client where
  conf : Config
  lastRestart : Int
  trackedEvents : List String
  heartbeatInterval : Nat
  heartbeatLatency : Int
  lastHeartbeatAck : Int
  sessionID : String
  trace : List String
  sequenceNumber : Nat
  pulsating : Nat
  disconnected : Bool
  haveConnectedOnce : Bool
  timeoutMultiplier : Nat
deriving DecidableEq, Repr

/-- `eventOfInterest`, client.go lines 455-466: linear scan of
`trackedEvents` for the name. -/
def Client.eventOfInterest (m : Client) (name : String) : Bool :=
  m.trackedEvents.contains name

/-- Result of one `eventHandler` call: the updated state, the event
dispatched on `eventChan` (if any), and whether `go m.reconnect()` was
spawned. -/
structure EventHandlerResult where
  client : Client
  dispatched : Option Event
  reconnectSpawned : Bool
deriving DecidableEq, Repr

/-- `eventHandler`, client.go lines 410-453: increment `sequenceNumber`;
on mismatch with the packet's sequence, decrement again and spawn
`reconnect`; on `READY` store `session_id` and `_trace`; on `RESUMED` no
extra state change; drop untracked `DiscordEvent` names; otherwise
dispatch `{name, data}`. -/
def Client.eventHandler (m : Client) (p : discordPacket) : EventHandlerResult :=
  let m1 : Client := { m with sequenceNumber := m.sequenceNumber + 1 }
  if p.SequenceNumber ≠ m1.sequenceNumber then
    ⟨{ m1 with sequenceNumber := m1.sequenceNumber - 1 }, none, true⟩
  else if p.EventName = event.Ready then
    let ready := unmarshalReady p.Data
    ⟨{ m1 with sessionID := ready.1, trace := ready.2 },
      some ⟨p.EventName, p.Data⟩, false⟩
  else if p.EventName = event.Resume then
    ⟨m1, some ⟨p.EventName, p.Data⟩, false⟩
  else if p.Op == opcode.DiscordEvent && !(m1.eventOfInterest p.EventName) then
    ⟨m1, none, false⟩
  else
    ⟨m1, some ⟨p.EventName, p.Data⟩, false⟩

/-- `eventHandler` folded over a list of inbound `DiscordEvent` packets
(the demultiplexer's `opcode.DiscordEvent` case, client.go line 489). -/
def Client.processEvents (m : Client) (ps : List discordPacket) : Client :=
  ps.foldl (fun c p => (c.eventHandler p).client) m

/-- A concrete `Client` as built by `NewClient`, client.go lines 26-47
(fresh session: `disconnected = true`, `timeoutMultiplier = 1`, all
session state zero-valued). -/
def NewClient (conf : Config) : Client :=
  { conf := conf
    lastRestart := 0
    trackedEvents := []
    heartbeatInterval := 0
    heartbeatLatency := 0
    lastHeartbeatAck := 0
    sessionID := ""
    trace := []
    sequenceNumber := 0
    pulsating := 0
    disconnected := true
    haveConnectedOnce := false
    timeoutMultiplier := 1 }

/-- A concrete configuration used for witnesses. -/
def testConfig : Config :=
  { Token := "T"
    ChannelBuffer := 0
    Endpoint := ""
    Encoding := "json"
    Version := 6
    Browser := "b"
    Device := "d"
    GuildLargeThreshold := 250
    ShardID := 0
    ShardCount := 1 }

/-- The `$os/$browser/$device` properties of the identify payload,
client.go lines 651-655. -/
structure IdentifyProperties where
  os : String
  browser : String
  device : String
deriving DecidableEq, Repr

/-- The identify payload built by `sendIdentityPacket`,
client.go lines 640-667. -/
structure IdentifyPayload where
  token : String
  properties : IdentifyProperties
  compress : Bool
  largeThreshold : Nat
  shard : Option (Nat × Nat)
deriving DecidableEq, Repr

/-- Models `runtime.GOOS` (an environment constant). -/
def runtimeGOOS : String := "linux"

/-- `sendIdentityPacket`, client.go lines 640-671: build the identify
payload from the config; the `shard` field is present only when
`ShardCount > 1`; the payload is then emitted as an `Identify` command. -/
def sendIdentityPacket (m : Client) : IdentifyPayload :=
  { token := m.conf.Token
    properties := ⟨runtimeGOOS, m.conf.Browser, m.conf.Device⟩
    compress := false
    largeThreshold := m.conf.GuildLargeThreshold
    shard := if m.conf.ShardCount > 1 then some (m.conf.ShardID, m.conf.ShardCount) else none }

/-- The resume payload `{token, session_id, seq}`,
client.go lines 553-557. -/
structure ResumePayload where
  token : String
  sessionID : String
  seq : Nat
deriving DecidableEq, Repr

/-- The single frame `sendHelloPacket` emits: an Identify command or a
Resume command. -/
inductive HelloAction where
  | identify (p : IdentifyPayload)
  | resume (p : ResumePayload)
deriving DecidableEq, Repr

/-- `sendHelloPacket`, client.go lines 534-558: (after spawning the
pulsator) send Identify when `sessionID == "" && sequenceNumber == 0`,
else send Resume `{token, session_id, seq}`. -/
def Client.sendHelloPacket (m : Client) : HelloAction :=
  if m.sessionID = "" ∧ m.sequenceNumber = 0 then
    .identify (sendIdentityPacket m)
  else
    .resume ⟨m.conf.Token, m.sessionID, m.sequenceNumber⟩

/-- The `opcode.Hello` case of `operationHandlers`, client.go lines
510-521: unmarshal the hello payload, store `heartbeat_interval`, then
`sendHelloPacket`. -/
def Client.helloHandler (m : Client) (d : PacketData) : Client × HelloAction :=
  let m1 : Client := { m with heartbeatInterval := unmarshalHello d }
  (m1, m1.sendHelloPacket)

/-- The heartbeat-ack watchdog goroutine body, client.go lines 607-625,
once the 3-second deadline has elapsed without cancellation.  `ackNow` is
the current `lastHeartbeatAck`, `last` the value snapshotted before the
beat was emitted, `sent` the time the beat was sent.  Go tests
`receivedHeartbeatAck := m.lastHeartbeatAck.After(last)`; on `false` it
calls `reconnect()` (first component `true`), else it sets
`heartbeatLatency := lastHeartbeatAck.Sub(sent)` (second component). -/
def pulsateWatchdog (ackNow last sent : Int) : Bool × Option Int :=
  if last < ackNow then (false, some (ackNow - sent)) else (true, none)

/-- `AllowedToStartPulsating`, client.go lines 561-570: set the token iff
it is zero, then report whether the caller owns it. -/
def Client.AllowedToStartPulsating (m : Client) (serviceID : Nat) : Client × Bool :=
  let m1 : Client := if m.pulsating = 0 then { m with pulsating := serviceID } else m
  (m1, m1.pulsating == serviceID)

/-- `StopPulsating`, client.go lines 573-580: clear the token iff the
caller owns it. -/
def Client.StopPulsating (m : Client) (serviceID : Nat) : Client :=
  if m.pulsating = serviceID then { m with pulsating := 0 } else m

/-- Result of `Disconnect`: the updated state, whether the
`already disconnected` error was returned, and whether a logical Close
was emitted through `Emit(event.Close, nil)`. -/
structure DisconnectResult where
  client : Client
  alreadyDisconnectedErr : Bool
  closeEmitted : Bool
deriving DecidableEq, Repr

/-- `Disconnect`, client.go lines 184-203.  `connDisconnected` is what the
transport's `Disconnected()` reports. -/
def Client.Disconnect (m : Client) (connDisconnected : Bool) : DisconnectResult :=
  if connDisconnected || !m.haveConnectedOnce then
    ⟨{ m with disconnected := true }, true, false⟩
  else
    ⟨{ m with disconnected := true }, false, true⟩

/-- `time.Second.Nanoseconds() / 2`, the 500 ms debounce window of
`lockRestart` (client.go line 366). -/
def halfSecondNanos : Int := 1000000000 / 2

/-- `lockRestart`, client.go lines 361-373: under the restart mutex,
compare `now - lastRestart > 500 ms`; when the comparison succeeds record
`lastRestart := now` and return `true`. -/
def Client.lockRestart (m : Client) (now : Int) : Client × Bool :=
  if halfSecondNanos < now - m.lastRestart then
    ({ m with lastRestart := now }, true)
  else
    (m, false)

/-- Outcome of the reconnect attempt loop: success, exhaustion
(`Too many reconnect attempts`), or early exit on the shutdown signal.
Each carries the number of `Connect` calls made and the list of backoff
waits (in seconds) performed between attempts. -/
inductive ReconnectOutcome where
  | ok (attempts : Nat) (waits : List Nat)
  | tooMany (attempts : Nat) (waits : List Nat)
  | shutdownExit (attempts : Nat) (waits : List Nat)
deriving DecidableEq, Repr

/-- Number of `Connect` calls recorded in the outcome. -/
def ReconnectOutcome.attempts : ReconnectOutcome → Nat
  | .ok a _ => a
  | .tooMany a _ => a
  | .shutdownExit a _ => a

/-- The `for try := 0; try <= maxReconnectTries; try++` loop of
`reconnect`, client.go lines 385-405.  `connectOK k` is the oracle for the
success of the `Connect` call at `try = k`; `shutdownAt k` tells whether
the shutdown signal fires during the wait after failed attempt `k`.
Recursion is on the number of remaining loop iterations
(`maxReconnectTries + 1 - try` at entry).  Each iteration: call `Connect`
(success returns); at `try = maxReconnectTries` a failure returns the
too-many error; otherwise wait `(try+3)*2` seconds in a select with the
shutdown channel. -/
def reconnectGo (connectOK shutdownAt : Nat → Bool) : Nat → Nat → ReconnectOutcome
  | _, 0 => .tooMany 0 []
  | tryIdx, r + 1 =>
    if connectOK tryIdx then .ok 1 []
    else if r = 0 then .tooMany 1 []
    else if shutdownAt tryIdx then .shutdownExit 1 []
    else
      match reconnectGo connectOK shutdownAt (tryIdx + 1) r with
      | .ok a w => .ok (a + 1) ((tryIdx + 3) * 2 :: w)
      | .tooMany a w => .tooMany (a + 1) ((tryIdx + 3) * 2 :: w)
      | .shutdownExit a w => .shutdownExit (a + 1) ((tryIdx + 3) * 2 :: w)

/-- The attempt loop entered from `try = 0` with its
`maxReconnectTries + 1` iterations. -/
def reconnectSeries (connectOK shutdownAt : Nat → Bool) : ReconnectOutcome :=
  reconnectGo connectOK shutdownAt 0 (maxReconnectTries + 1)

/-- Result of one `reconnect()` call: the updated session state, whether
`Disconnect` was invoked, and the attempt series (`none` when the call was
debounced and returned silently). -/
structure ReconnectCall where
  client : Client
  disconnectCalled : Bool
  series : Option ReconnectOutcome
deriving DecidableEq, Repr

/-- `reconnect`, client.go lines 375-408: bail out silently unless
`lockRestart` succeeds; otherwise signal `restart`, call `Disconnect`
(which sets the `disconnected` flag), and run the attempt loop. -/
def Client.reconnect (m : Client) (now : Int) (connectOK shutdownAt : Nat → Bool) :
    ReconnectCall :=
  let lr := m.lockRestart now
  if lr.2 then
    ⟨{ lr.1 with disconnected := true }, true, some (reconnectSeries connectOK shutdownAt)⟩
  else
    ⟨lr.1, false, none⟩

/-- The command-name → opcode mapping of `Emit`'s `switch`, client.go
lines 211-232.  `none` models the `unsupported command` default case. -/
def commandOpcode (command : String) : Option Nat :=
  if command = event.Shutdown then some opcode.Shutdown
  else if command = event.Close then some opcode.Close
  else if command = event.Heartbeat then some opcode.Heartbeat
  else if command = event.Identify then some opcode.Identify
  else if command = event.Resume then some opcode.Resume
  else if command = cmd.RequestGuildMembers then some opcode.RequestGuildMembers
  else if command = cmd.UpdateVoiceState then some opcode.VoiceStateUpdate
  else if command = cmd.UpdateStatus then some opcode.StatusUpdate
  else none

/-- The eight command names of the mapping table. -/
def supportedCommands : List String :=
  [event.Shutdown, event.Close, event.Heartbeat, event.Identify, event.Resume,
    cmd.RequestGuildMembers, cmd.UpdateVoiceState, cmd.UpdateStatus]

/-- Result of `Emit`: one of the three errors, or the single packet
`{op, data}` enqueued onto the outbound `emitChan` (the only effect of a
successful `Emit`; it never touches the transport). -/
inductive EmitResult (α : Type) where
  | notConnectedErr
  | unsupportedErr (command : String)
  | rateLimitedErr
  | queued (p : clientPacket α)
deriving DecidableEq, Repr

/-- `Emit`, client.go lines 206-244: reject before any successful
`Connect`; map the command through the opcode table (unknown commands are
unsupported); consult the rate limiter; otherwise enqueue `{op, data}`.
`accept` models `m.ratelimit.Request` (modelled from the spec: the
ratelimiter implementation is not in the corpus, the spec only requires a
synchronous admit/reject decision per command kind). -/
def Client.Emit {α : Type} (m : Client) (accept : String → Bool) (command : String)
    (data : α) : EmitResult α :=
  if !m.haveConnectedOnce then .notConnectedErr
  else
    match commandOpcode command with
    | none => .unsupportedErr command
    | some op => if !accept command then .rateLimitedErr else .queued ⟨op, data⟩

/-- A command is outside the opcode table iff it is none of the eight
supported names. -/
lemma commandOpcode_none_iff (command : String) :
    commandOpcode command = none ↔ command ∉ supportedCommands := by
  unfold commandOpcode supportedCommands
  split_ifs with h1 h2 h3 h4 h5 h6 h7 h8 <;> simp_all

/-- `eventOfInterest` is membership in `trackedEvents`. -/
lemma eventOfInterest_iff (m : Client) (name : String) :
    m.eventOfInterest name = true ↔ name ∈ m.trackedEvents := by
  simp [Client.eventOfInterest]

/-- On a valid sequence number the handler commits the increment. -/
lemma eventHandler_seq (m : Client) (p : discordPacket)
    (hseq : p.SequenceNumber = m.sequenceNumber + 1) :
    (m.eventHandler p).client.sequenceNumber = m.sequenceNumber + 1 := by
  unfold Client.eventHandler
  rw [if_neg (by simp [hseq])]
  split_ifs <;> rfl

/-- Folding the handler over packets whose sequence numbers continue the
current counter advances the counter by the number of packets. -/
lemma processEvents_seq (ps : List discordPacket) : ∀ m : Client,
    (∀ i (hi : i < ps.length),
        (ps.get ⟨i, hi⟩).SequenceNumber = m.sequenceNumber + i + 1) →
    (m.processEvents ps).sequenceNumber = m.sequenceNumber + ps.length := by
  induction ps with
  | nil => intro m _; simp [Client.processEvents]
  | cons p ps ih =>
    intro m h
    have hseq : p.SequenceNumber = m.sequenceNumber + 1 := by
      simpa using h 0 (by simp)
    have hstep := eventHandler_seq m p hseq
    have htail : ∀ i (hi : i < ps.length),
        (ps.get ⟨i, hi⟩).SequenceNumber =
          (m.eventHandler p).client.sequenceNumber + i + 1 := by
      intro i hi
      have := h (i + 1) (by simpa using Nat.succ_lt_succ hi)
      simp only [List.get] at this ⊢
      rw [hstep]
      omega
    have := ih (m.eventHandler p).client htail
    have hcons : m.processEvents (p :: ps) =
        (m.eventHandler p).client.processEvents ps := rfl
    rw [hcons, this, hstep]
    simp only [List.length_cons]
    omega

/-- C1: a sequence-number mismatch rolls back the increment, forwards
nothing, and spawns `reconnect()`; the handler leaves the whole session
state unchanged (`reconnect` itself, which touches the debounce timestamp,
runs in the spawned goroutine and is modelled separately). -/
theorem C1_sequence_mismatch_rollback (m : Client) (p : discordPacket)
    (h : p.SequenceNumber ≠ m.sequenceNumber + 1) :
    m.eventHandler p = ⟨m, none, true⟩ := by
  simp only [Client.eventHandler, if_pos h]
  congr 1

/-- Witness for C1 at a concrete state and packet. -/
theorem C1_witness :
    (7 : Nat) ≠ 5 + 1 ∧
      ({ NewClient testConfig with sequenceNumber := 5 }).eventHandler
          ⟨opcode.DiscordEvent, .rawData "x", 7, "MESSAGE_CREATE"⟩ =
        ⟨{ NewClient testConfig with sequenceNumber := 5 }, none, true⟩ := by
  refine ⟨by decide, ?_⟩
  exact C1_sequence_mismatch_rollback { NewClient testConfig with sequenceNumber := 5 }
    ⟨opcode.DiscordEvent, .rawData "x", 7, "MESSAGE_CREATE"⟩ (by decide)

/-- C3: for a `DiscordEvent` packet with a valid sequence number, `{name,
data}` is forwarded on the event channel iff the name is tracked or is
`READY` or `RESUMED`; nothing else is ever forwarded; and `READY` stores
`session_id` and `_trace` from its payload. -/
theorem C3_forwarding_filter (m : Client) (p : discordPacket)
    (hop : p.Op = opcode.DiscordEvent)
    (hseq : p.SequenceNumber = m.sequenceNumber + 1) :
    ((m.eventHandler p).dispatched = some ⟨p.EventName, p.Data⟩ ↔
        (p.EventName ∈ m.trackedEvents ∨ p.EventName = event.Ready ∨
          p.EventName = event.Resume)) ∧
      ((m.eventHandler p).dispatched = none ∨
        (m.eventHandler p).dispatched = some ⟨p.EventName, p.Data⟩) ∧
      (∀ sid tr, p.EventName = event.Ready → p.Data = .readyData sid tr →
        (m.eventHandler p).client.sessionID = sid ∧
          (m.eventHandler p).client.trace = tr) := by
  unfold Client.eventHandler
  rw [if_neg (by simp [hseq])]
  by_cases hR : p.EventName = event.Ready
  · refine ⟨?_, ?_, ?_⟩
    · simp [hR]
    · simp [hR]
    · intro sid tr _ hd
      simp [hR, hd, unmarshalReady]
  · by_cases hRes : p.EventName = event.Resume
    · refine ⟨?_, ?_, ?_⟩
      · simp [hR, hRes, show event.Resume ≠ event.Ready from by decide]
      · simp [hR, hRes, show event.Resume ≠ event.Ready from by decide]
      · intro sid tr hready _
        exact absurd hready hR
    · by_cases hT : p.EventName ∈ m.trackedEvents
      · refine ⟨?_, ?_, ?_⟩
        · simp [hR, hRes, hT, Client.eventOfInterest]
        · simp [hR, hRes, hT, Client.eventOfInterest]
        · intro sid tr hready _
          exact absurd hready hR
      · refine ⟨?_, ?_, ?_⟩
        · simp [hR, hRes, hT, Client.eventOfInterest, hop]
        · simp [hR, hRes, hT, Client.eventOfInterest, hop]
        · intro sid tr hready _
          exact absurd hready hR

/-- Witness for C3: a tracked `MESSAGE_CREATE` is forwarded, and a `READY`
dispatch stores the session id from the payload. -/
theorem C3_witness :
    (({ NewClient testConfig with
          trackedEvents := ["MESSAGE_CREATE"]
          sequenceNumber := 3 }).eventHandler
        ⟨opcode.DiscordEvent, .rawData "x", 4, "MESSAGE_CREATE"⟩).dispatched =
      some ⟨"MESSAGE_CREATE", .rawData "x"⟩ := by
  have h := C3_forwarding_filter
    { NewClient testConfig with
        trackedEvents := ["MESSAGE_CREATE"]
        sequenceNumber := 3 }
    ⟨opcode.DiscordEvent, .rawData "x", 4, "MESSAGE_CREATE"⟩ (by decide) (by decide)
  exact h.1.mpr (Or.inl (by decide))

/-- C9: starting from `sequence_number = 0`, processing packets whose
sequence numbers are exactly `1, 2, ..., N` leaves `sequence_number = N`. -/
theorem C9_sequence_counts_events (m : Client) (ps : List discordPacket)
    (h0 : m.sequenceNumber = 0)
    (h : ∀ i (hi : i < ps.length), (ps.get ⟨i, hi⟩).SequenceNumber = i + 1) :
    (m.processEvents ps).sequenceNumber = ps.length := by
  have := processEvents_seq ps m (fun i hi => by rw [h i hi, h0]; omega)
  rw [this, h0]
  omega

/-- Witness for C9 with three concrete packets. -/
theorem C9_witness :
    ((NewClient testConfig).processEvents
        [⟨opcode.DiscordEvent, .rawData "a", 1, "E1"⟩,
         ⟨opcode.DiscordEvent, .rawData "b", 2, "E2"⟩,
         ⟨opcode.DiscordEvent, .rawData "c", 3, "E3"⟩]).sequenceNumber = 3 := by
  exact C9_sequence_counts_events (NewClient testConfig)
    [⟨opcode.DiscordEvent, .rawData "a", 1, "E1"⟩,
     ⟨opcode.DiscordEvent, .rawData "b", 2, "E2"⟩,
     ⟨opcode.DiscordEvent, .rawData "c", 3, "E3"⟩]
    (by decide)
    (by intro i hi
        have h3 : i < 3 := by simpa using hi
        interval_cases i <;> rfl)

/-- C2: on Hello the client stores `heartbeat_interval` from the payload
and then sends exactly one frame: Identify when `session_id == ""` and
`sequence_number == 0`, else Resume `{token, session_id, seq}` (and thus
no Identify: `HelloAction` is a single frame and the constructors are
distinct). -/
theorem C2_hello_identify_or_resume (m : Client) (hb : Nat) :
    ((m.helloHandler (.helloData hb)).1.heartbeatInterval = hb) ∧
      (m.sessionID = "" ∧ m.sequenceNumber = 0 →
        (m.helloHandler (.helloData hb)).2 = .identify (sendIdentityPacket m)) ∧
      (¬(m.sessionID = "" ∧ m.sequenceNumber = 0) →
        (m.helloHandler (.helloData hb)).2 =
          .resume ⟨m.conf.Token, m.sessionID, m.sequenceNumber⟩) := by
  refine ⟨rfl, ?_, ?_⟩
  · intro h
    obtain ⟨h1, h2⟩ := h
    simp only [Client.helloHandler, Client.sendHelloPacket, unmarshalHello]
    rw [if_pos ⟨h1, h2⟩]
    rfl
  · intro h
    simp only [Client.helloHandler, Client.sendHelloPacket, unmarshalHello]
    rw [if_neg h]

/-- Witness for C2: the resume scenario of the spec
(`session_id = "abc"`, `sequence_number = 5`). -/
theorem C2_witness :
    (({ NewClient testConfig with
          sessionID := "abc"
          sequenceNumber := 5 }).helloHandler (.helloData 45000)).1.heartbeatInterval
        = 45000 ∧
      (({ NewClient testConfig with
            sessionID := "abc"
            sequenceNumber := 5 }).helloHandler (.helloData 45000)).2 =
        .resume ⟨"T", "abc", 5⟩ := by
  refine ⟨(C2_hello_identify_or_resume
    { NewClient testConfig with sessionID := "abc", sequenceNumber := 5 } 45000).1, ?_⟩
  exact (C2_hello_identify_or_resume
    { NewClient testConfig with sessionID := "abc", sequenceNumber := 5 } 45000).2.2
    (by decide)

/-- C4: when the per-beat watchdog deadline elapses uncancelled, it forces
`reconnect()` iff `lastHeartbeatAck` has not advanced past the snapshot
taken before the beat was sent; if an ack did arrive it instead sets
`heartbeatLatency := lastHeartbeatAck - sent` and does not reconnect. -/
theorem C4_watchdog_reconnect_iff_no_ack (ackNow last sent : Int) :
    ((pulsateWatchdog ackNow last sent).1 = true ↔ ackNow ≤ last) ∧
      (last < ackNow →
        (pulsateWatchdog ackNow last sent) = (false, some (ackNow - sent))) ∧
      (ackNow ≤ last → (pulsateWatchdog ackNow last sent) = (true, none)) := by
  unfold pulsateWatchdog
  split_ifs with h
  · exact ⟨by simp [not_le.mpr h], fun _ => rfl, fun hle => absurd h (not_lt.mpr hle)⟩
  · exact ⟨by simp [not_lt.mp h], fun hlt => absurd hlt h, fun _ => rfl⟩

/-- Witness for C4: no ack (`ackNow = last`) forces reconnect; an ack
(`ackNow > last`) records the latency. -/
theorem C4_witness :
    pulsateWatchdog 5 5 2 = (true, none) ∧
      pulsateWatchdog 7 5 2 = (false, some 5) := by
  refine ⟨(C4_watchdog_reconnect_iff_no_ack 5 5 2).2.2 (by norm_num), ?_⟩
  have h := (C4_watchdog_reconnect_iff_no_ack 7 5 2).2.1 (by norm_num)
  simpa using h

/-- C7: the pulsator single-flight token.  `AllowedToStartPulsating sid`
sets the token iff it is zero, returns `true` exactly when the caller owns
the token afterwards; `StopPulsating sid` clears the token iff it equals
`sid` and otherwise changes nothing; consequently a second caller with a
different non-zero id cannot acquire the token while it is held. -/
theorem C7_single_flight_token (m : Client) (sid sid2 : Nat) :
    (m.pulsating = 0 → (m.AllowedToStartPulsating sid).1.pulsating = sid) ∧
      (m.pulsating ≠ 0 → (m.AllowedToStartPulsating sid).1 = m) ∧
      ((m.AllowedToStartPulsating sid).2 = true ↔
        (m.AllowedToStartPulsating sid).1.pulsating = sid) ∧
      (m.pulsating = sid → (m.StopPulsating sid).pulsating = 0) ∧
      (m.pulsating ≠ sid → m.StopPulsating sid = m) ∧
      (sid ≠ 0 → sid2 ≠ sid → (m.AllowedToStartPulsating sid).2 = true →
        ((m.AllowedToStartPulsating sid).1.AllowedToStartPulsating sid2).2 = false) := by
  refine ⟨?_, ?_, ?_, ?_, ?_, ?_⟩
  · intro h
    simp [Client.AllowedToStartPulsating, h]
  · intro h
    simp [Client.AllowedToStartPulsating, h]
  · simp [Client.AllowedToStartPulsating]
  · intro h
    simp [Client.StopPulsating, h]
  · intro h
    simp [Client.StopPulsating, h]
  · intro hsid hsid2 hok
    by_cases h : m.pulsating = 0
    · simp [Client.AllowedToStartPulsating, h, hsid, Ne.symm hsid2]
    · simp only [Client.AllowedToStartPulsating, if_neg h] at hok ⊢
      have hown : m.pulsating = sid := by simpa using hok
      simp [hown, Ne.symm hsid2]

/-- Witness for C7: from a free token, id 7 acquires it, id 9 then cannot,
and id 7 releases it. -/
theorem C7_witness :
    ((NewClient testConfig).AllowedToStartPulsating 7).1.pulsating = 7 ∧
      ((NewClient testConfig).AllowedToStartPulsating 7).2 = true ∧
      (((NewClient testConfig).AllowedToStartPulsating 7).1.AllowedToStartPulsating 9).2
          = false ∧
      (((NewClient testConfig).AllowedToStartPulsating 7).1.StopPulsating 7).pulsating
          = 0 := by
  have h := C7_single_flight_token (NewClient testConfig) 7 9
  have h1 := h.1 (by decide)
  have h2 := h.2.2.1.mpr h1
  refine ⟨h1, h2, h.2.2.2.2.2 (by decide) (by decide) h2, ?_⟩
  exact (C7_single_flight_token
    ((NewClient testConfig).AllowedToStartPulsating 7).1 7 9).2.2.2.1 h1

/-- C10: `Disconnect` when the transport reports disconnected or when no
`Connect` ever succeeded returns the `already disconnected` error, still
sets the `disconnected` flag, and emits no Close frame. -/
theorem C10_disconnect_already_disconnected (m : Client) (cd : Bool)
    (h : cd = true ∨ m.haveConnectedOnce = false) :
    (m.Disconnect cd).alreadyDisconnectedErr = true ∧
      (m.Disconnect cd).client.disconnected = true ∧
      (m.Disconnect cd).closeEmitted = false := by
  have hcond : (cd || !m.haveConnectedOnce) = true := by
    rcases h with h | h <;> simp [h]
  simp [Client.Disconnect, hcond]

/-- Witness for C10: a fresh client (never connected) with a live-looking
transport still takes the error path. -/
theorem C10_witness :
    ((NewClient testConfig).Disconnect false).alreadyDisconnectedErr = true ∧
      ((NewClient testConfig).Disconnect false).client.disconnected = true ∧
      ((NewClient testConfig).Disconnect false).closeEmitted = false := by
  exact C10_disconnect_already_disconnected (NewClient testConfig) false (Or.inr rfl)

/-- C5 counterexample: with every `Connect` failing and no shutdown, a
non-debounced `reconnect()` calls `Connect` six times, not the claimed
`maxReconnectTries = 5` (the loop condition is `try <= maxReconnectTries`),
before returning the too-many-attempts error. -/
theorem C5_counterexample :
    ((NewClient testConfig).reconnect 1000000000 (fun _ => false) (fun _ => false)).series =
        some (.tooMany 6 [6, 8, 10, 12, 14]) ∧
      (ReconnectOutcome.tooMany 6 [6, 8, 10, 12, 14]).attempts ≠ maxReconnectTries := by
  constructor
  · rfl
  · decide

/-- C5 amended: a non-debounced `reconnect()` attempts `Connect` up to
`maxReconnectTries + 1 = 6` times; between consecutive attempts it waits
`(try+3)*2` seconds (cancellable by shutdown); it returns as soon as one
`Connect` succeeds; when all six attempts fail it returns the
too-many-attempts error. -/
theorem C5_amended_retry_loop (f : Nat → Bool) :
    ((∀ k, k ≤ maxReconnectTries → f k = false) →
        reconnectSeries f (fun _ => false) =
          .tooMany (maxReconnectTries + 1) [6, 8, 10, 12, 14]) ∧
      (∀ k, k ≤ maxReconnectTries → f k = true → (∀ j, j < k → f j = false) →
        reconnectSeries f (fun _ => false) =
          .ok (k + 1) ((List.range k).map fun j => (j + 3) * 2)) ∧
      (∀ (m : Client) (now : Int) (s : Nat → Bool),
        halfSecondNanos < now - m.lastRestart →
        (m.reconnect now f s).series = some (reconnectSeries f s)) := by
  refine ⟨?_, ?_, ?_⟩
  · intro h
    simp [reconnectSeries, maxReconnectTries, reconnectGo,
      h 0 (by decide), h 1 (by decide), h 2 (by decide),
      h 3 (by decide), h 4 (by decide), h 5 (by decide)]
  · intro k hk hfk hmin
    have hk5 : k ≤ 5 := hk
    interval_cases k
    · simp [reconnectSeries, maxReconnectTries, reconnectGo, hfk]
    · simp [reconnectSeries, maxReconnectTries, reconnectGo, hfk,
        hmin 0 (by decide)]
      decide
    · simp [reconnectSeries, maxReconnectTries, reconnectGo, hfk,
        hmin 0 (by decide), hmin 1 (by decide)]
      decide
    · simp [reconnectSeries, maxReconnectTries, reconnectGo, hfk,
        hmin 0 (by decide), hmin 1 (by decide), hmin 2 (by decide)]
      decide
    · simp [reconnectSeries, maxReconnectTries, reconnectGo, hfk,
        hmin 0 (by decide), hmin 1 (by decide), hmin 2 (by decide),
        hmin 3 (by decide)]
      decide
    · simp [reconnectSeries, maxReconnectTries, reconnectGo, hfk,
        hmin 0 (by decide), hmin 1 (by decide), hmin 2 (by decide),
        hmin 3 (by decide), hmin 4 (by decide)]
      decide
  · intro m now s hdeb
    simp [Client.reconnect, Client.lockRestart, hdeb]

/-- Witness for C5 amended: `Connect` succeeds on the third try
(`k = 2`), after waits of 6 and 8 seconds. -/
theorem C5_witness :
    reconnectSeries (fun k => decide (k = 2)) (fun _ => false) = .ok 3 [6, 8] := by
  have h := (C5_amended_retry_loop (fun k => decide (k = 2))).2.1 2
    (by decide) (by decide)
    (by intro j hj
        interval_cases j <;> decide)
  simpa using h

/-- C6: `reconnect()` proceeds only when `now - lastRestart` is at least
500 ms (the code requires strictly more), records `lastRestart := now`
when it proceeds, returns silently without disconnecting within the
window, and hence two calls within 500 ms of each other yield at most one
attempt series. -/
theorem C6_debounce (m : Client) (now now2 : Int) (f s : Nat → Bool) :
    ((m.reconnect now f s).series ≠ none →
        halfSecondNanos ≤ now - m.lastRestart) ∧
      ((m.reconnect now f s).series ≠ none →
        (m.reconnect now f s).client.lastRestart = now) ∧
      (now - m.lastRestart ≤ halfSecondNanos →
        m.reconnect now f s = ⟨m, false, none⟩) ∧
      ((m.reconnect now f s).series ≠ none → now2 - now ≤ halfSecondNanos →
        ((m.reconnect now f s).client.reconnect now2 f s).series = none) := by
  by_cases hc : halfSecondNanos < now - m.lastRestart
  · refine ⟨fun _ => le_of_lt hc, fun _ => ?_, fun hle => absurd hc (not_lt.mpr hle), ?_⟩
    · simp [Client.reconnect, Client.lockRestart, hc]
    · intro _ h2
      simp [Client.reconnect, Client.lockRestart, hc, not_lt.mpr h2]
  · refine ⟨?_, ?_, fun _ => ?_, ?_⟩ <;>
      simp [Client.reconnect, Client.lockRestart, hc]

/-- Witness for C6: a proceeding call at t=1s followed by a call 200 ms
later, which is dropped. -/
theorem C6_witness :
    ((NewClient testConfig).reconnect 1000000000 (fun _ => true) (fun _ => false)).series
        ≠ none ∧
      ((((NewClient testConfig).reconnect 1000000000 (fun _ => true)
            (fun _ => false)).client).reconnect 1200000000 (fun _ => true)
          (fun _ => false)).series = none := by
  refine ⟨by decide, ?_⟩
  exact (C6_debounce (NewClient testConfig) 1000000000 1200000000 (fun _ => true)
    (fun _ => false)).2.2.2 (by decide) (by decide)

/-- C8 counterexample: for an unknown command issued before any
successful `Connect`, `Emit` returns the not-connected error, not the
unsupported-command error the claim promises for every command outside
the table (the `haveConnectedOnce` check comes first, client.go
lines 207-209). -/
theorem C8_counterexample :
    "bogus" ∉ supportedCommands ∧
      (NewClient testConfig).Emit (fun _ => true) "bogus" (0 : Nat) =
        EmitResult.notConnectedErr ∧
      (EmitResult.notConnectedErr : EmitResult Nat) ≠
        EmitResult.unsupportedErr "bogus" := by
  exact ⟨by decide, rfl, by decide⟩

/-- C8 amended: the not-connected check takes priority; once connected,
commands outside the table get the unsupported-command error; for a
supported command the rate limiter is consulted and a rejection returns
the rate-limited error; otherwise exactly one packet `{op, data}` with the
table's opcode is enqueued onto the outbound channel (the transport is
never written directly). -/
theorem C8_amended_emit {α : Type} (m : Client) (accept : String → Bool)
    (command : String) (data : α) :
    (m.haveConnectedOnce = false →
        m.Emit accept command data = .notConnectedErr) ∧
      (m.haveConnectedOnce = true → command ∉ supportedCommands →
        m.Emit accept command data = .unsupportedErr command) ∧
      (∀ op, m.haveConnectedOnce = true → commandOpcode command = some op →
        accept command = false → m.Emit accept command data = .rateLimitedErr) ∧
      (∀ op, m.haveConnectedOnce = true → commandOpcode command = some op →
        accept command = true →
        m.Emit accept command data = .queued ⟨op, data⟩) := by
  refine ⟨?_, ?_, ?_, ?_⟩
  · intro h
    simp [Client.Emit, h]
  · intro h hns
    have hnone : commandOpcode command = none :=
      (commandOpcode_none_iff command).mpr hns
    simp [Client.Emit, h, hnone]
  · intro op h hop hacc
    simp [Client.Emit, h, hop, hacc]
  · intro op h hop hacc
    simp [Client.Emit, h, hop, hacc]

/-- Witness for C8 amended: on a connected client a Heartbeat command is
enqueued as `{op 1, data}` when admitted and rate-limited when rejected. -/
theorem C8_witness :
    ({ NewClient testConfig with haveConnectedOnce := true }).Emit
        (fun _ => true) event.Heartbeat (5 : Nat) =
      EmitResult.queued ⟨opcode.Heartbeat, 5⟩ ∧
      ({ NewClient testConfig with haveConnectedOnce := true }).Emit
          (fun _ => false) event.Heartbeat (5 : Nat) =
        EmitResult.rateLimitedErr := by
  constructor
  · exact (C8_amended_emit { NewClient testConfig with haveConnectedOnce := true }
      (fun _ => true) event.Heartbeat (5 : Nat)).2.2.2 opcode.Heartbeat rfl
      (by decide) rfl
  · exact (C8_amended_emit { NewClient testConfig with haveConnectedOnce := true }
      (fun _ => false) event.Heartbeat (5 : Nat)).2.2.1 opcode.Heartbeat rfl
      (by decide) rfl

end Disgord
